import Mathlib

/-!
Shallow embedding of the rephrase-ai browser extension.

The embedding models, from the TypeScript source:
  - the settings record and the storage service (src/utils/storage.ts),
  - the provider clients and factory (src/api/client.ts),
  - the background coordinator (src/background/service.ts),
  - the modal mounting discipline of the content script (src/content/service.ts),
  - the options controller connection test (src/options/controller.ts).

JavaScript conventions are made explicit:
  - optional string fields become Option String, where none stands for an
    absent or undefined key (explicitly-undefined keys and absent keys are
    conflated: every read in the source treats them identically),
  - JS truthiness of an optional string (undefined and the empty string are
    both falsy) becomes jsTruthy,
  - the network is an oracle FetchOutcome: either the fetch or json call threw
    (carrying the error message), or an HTTP response arrived with its ok flag,
    status, statusText, and the extracted output field, where the empty string
    stands for a missing field (both are falsy where the source tests them),
  - asynchronous effects become explicit traces: each provider-client
    invocation records the single outbound request it performs, and the
    coordinator handlers return the ordered list of pushed tab messages and
    network calls they cause.
-/

/-- Embedding of the JS String.prototype.trim call: removes whitespace from
both ends of the string, written structurally over the character list so that
it evaluates inside the kernel. -/
def jsTrim (s : String) : String :=
  String.mk (((s.data.dropWhile Char.isWhitespace).reverse.dropWhile Char.isWhitespace).reverse)

/-- Truthiness of an optional JS string: undefined and the empty string are falsy. -/
def jsTruthy (o : Option String) : Bool :=
  match o with
  | none => false
  | some s => !(s = "")

/-- Embedding of the JS idiom o || d for an optional string o and default d. -/
def jsOr (o : Option String) (d : String) : String :=
  match o with
  | none => d
  | some s => if s = "" then d else s

/-- Embedding of the JS test !o?.trim() : true when o is undefined or blank after trimming. -/
def optBlank (o : Option String) : Bool :=
  match o with
  | none => true
  | some s => jsTrim s = ""

/-- Settings record, from interface ExtensionSettings. The provider tag is kept
as a raw string because the code paths that consume it (the factory, the
validator) branch on string comparison and accept arbitrary values. -/
structure ExtensionSettings where
  provider : String
  openaiApiKey : Option String
  claudeApiKey : Option String
  openaiModel : String
  claudeModel : String
  customPrompt : Option String
  customSummaryPrompt : Option String
deriving Repr, DecidableEq

/-- Normalized provider-client result: the {success, text?, error?} objects the
clients return, with success=true carrying the output field (rephrasedText or
summaryText) and success=false carrying the error field. -/
inductive ApiResult where
  | success (text : String)
  | failure (error : String)
deriving Repr, DecidableEq

/-- Oracle for one fetch invocation: thrown models the whole try block throwing
(fetch failure or a json error), with the message of the caught Error; http
models a response with its ok flag, status, statusText, and the extracted
output field (choices[0]?.message?.content for OpenAI, content[0]?.text for
Claude), the empty string standing for an absent field. -/
inductive FetchOutcome where
  | thrown (cause : String)
  | http (ok : Bool) (status : Nat) (statusText : String) (content : String)
deriving Repr, DecidableEq

/-- Record of one outbound provider request, with the input text that produced it. -/
inductive NetCall where
  | openaiChat (apiKey : Option String) (model system user input : String)
  | claudeMsg (apiKey : Option String) (model user input : String)
deriving Repr, DecidableEq

/-- Default system prompt for rephrase, from src/api/client.ts. -/
def DEFAULT_SYSTEM_PROMPT : String :=
  "You are a helpful assistant that rephrases text while maintaining the original meaning. Provide only the rephrased text without additional commentary."

/-- Default system prompt for summarize, from src/api/client.ts. -/
def DEFAULT_SUMMARY_PROMPT : String :=
  "You are a helpful assistant that creates brief, clear summaries. Summarize the following text in a concise manner with proper headings and paragraphs where appropriate."

/-- OpenAIClient.rephrase: builds the request (custom prompt if truthy, else the
default system prompt with the fixed user-message prefix), performs exactly one
fetch, and classifies the outcome: thrown gives Network error, not ok gives the
OpenAI API Error with status and statusText, a falsy output field gives No
response, otherwise success with the trimmed content. -/
def OpenAIClient.rephrase (text : String) (settings : ExtensionSettings)
    (net : FetchOutcome) : List NetCall × ApiResult :=
  let prompt := jsOr settings.customPrompt DEFAULT_SYSTEM_PROMPT
  let userMessage :=
    if jsTruthy settings.customPrompt then text
    else "Please rephrase the following text: " ++ text
  let result :=
    match net with
    | FetchOutcome.thrown cause => ApiResult.failure ("Network error: " ++ cause)
    | FetchOutcome.http ok status statusText content =>
        if !ok then
          ApiResult.failure ("OpenAI API Error: " ++ toString status ++ " " ++ statusText)
        else if content = "" then
          ApiResult.failure "No response from OpenAI API"
        else
          ApiResult.success (jsTrim content)
  ([NetCall.openaiChat settings.openaiApiKey settings.openaiModel prompt userMessage text],
   result)

/-- OpenAIClient.summarize: same structure as rephrase with the summary prompt,
the summarize user-message prefix, and the summaryText output field. -/
def OpenAIClient.summarize (text : String) (settings : ExtensionSettings)
    (net : FetchOutcome) : List NetCall × ApiResult :=
  let prompt := jsOr settings.customSummaryPrompt DEFAULT_SUMMARY_PROMPT
  let userMessage :=
    if jsTruthy settings.customSummaryPrompt then text
    else "Please summarize the following text: " ++ text
  let result :=
    match net with
    | FetchOutcome.thrown cause => ApiResult.failure ("Network error: " ++ cause)
    | FetchOutcome.http ok status statusText content =>
        if !ok then
          ApiResult.failure ("OpenAI API Error: " ++ toString status ++ " " ++ statusText)
        else if content = "" then
          ApiResult.failure "No response from OpenAI API"
        else
          ApiResult.success (jsTrim content)
  ([NetCall.openaiChat settings.openaiApiKey settings.openaiModel prompt userMessage text],
   result)

/-- ClaudeClient.rephrase: the prompt is concatenated into the single user
message, the request carries the claude key and model, and failures use the
Claude labels. -/
def ClaudeClient.rephrase (text : String) (settings : ExtensionSettings)
    (net : FetchOutcome) : List NetCall × ApiResult :=
  let prompt := jsOr settings.customPrompt DEFAULT_SYSTEM_PROMPT
  let userMessage :=
    if jsTruthy settings.customPrompt then prompt ++ "\n\n" ++ text
    else prompt ++ "\n\nPlease rephrase the following text: " ++ text
  let result :=
    match net with
    | FetchOutcome.thrown cause => ApiResult.failure ("Network error: " ++ cause)
    | FetchOutcome.http ok status statusText content =>
        if !ok then
          ApiResult.failure ("Claude API Error: " ++ toString status ++ " " ++ statusText)
        else if content = "" then
          ApiResult.failure "No response from Claude API"
        else
          ApiResult.success (jsTrim content)
  ([NetCall.claudeMsg settings.claudeApiKey settings.claudeModel userMessage text],
   result)

/-- ClaudeClient.summarize: same structure as ClaudeClient.rephrase with the
summary prompt and prefix. -/
def ClaudeClient.summarize (text : String) (settings : ExtensionSettings)
    (net : FetchOutcome) : List NetCall × ApiResult :=
  let prompt := jsOr settings.customSummaryPrompt DEFAULT_SUMMARY_PROMPT
  let userMessage :=
    if jsTruthy settings.customSummaryPrompt then prompt ++ "\n\n" ++ text
    else prompt ++ "\n\nPlease summarize the following text: " ++ text
  let result :=
    match net with
    | FetchOutcome.thrown cause => ApiResult.failure ("Network error: " ++ cause)
    | FetchOutcome.http ok status statusText content =>
        if !ok then
          ApiResult.failure ("Claude API Error: " ++ toString status ++ " " ++ statusText)
        else if content = "" then
          ApiResult.failure "No response from Claude API"
        else
          ApiResult.success (jsTrim content)
  ([NetCall.claudeMsg settings.claudeApiKey settings.claudeModel userMessage text],
   result)

/-- Kind of client instance the factory returns. -/
inductive ClientKind where
  | openai
  | claude
deriving Repr, DecidableEq

/-- APIClientFactory.create: an OpenAI client exactly when the provider tag is
the string openai, a Claude client for every other value. -/
def APIClientFactory.create (settings : ExtensionSettings) : ClientKind :=
  if settings.provider = "openai" then ClientKind.openai else ClientKind.claude

/-- APIClientFactory.rephrase: create the client from the settings and invoke
its rephrase method. -/
def APIClientFactory.rephrase (text : String) (settings : ExtensionSettings)
    (net : FetchOutcome) : List NetCall × ApiResult :=
  match APIClientFactory.create settings with
  | ClientKind.openai => OpenAIClient.rephrase text settings net
  | ClientKind.claude => ClaudeClient.rephrase text settings net

/-- APIClientFactory.summarize: create the client and invoke its summarize method. -/
def APIClientFactory.summarize (text : String) (settings : ExtensionSettings)
    (net : FetchOutcome) : List NetCall × ApiResult :=
  match APIClientFactory.create settings with
  | ClientKind.openai => OpenAIClient.summarize text settings net
  | ClientKind.claude => ClaudeClient.summarize text settings net

/-- Provider label used in the error strings of the client selected by the factory. -/
def providerLabel (settings : ExtensionSettings) : String :=
  if settings.provider = "openai" then "OpenAI" else "Claude"

/-- Result of StorageService.validateSettings. -/
structure ValidationResult where
  isValid : Bool
  errors : List String
deriving Repr, DecidableEq

/-- Default settings of the StorageService, from src/utils/storage.ts. -/
def StorageService.defaultSettings : ExtensionSettings :=
  { provider := "anthropic"
    openaiApiKey := some ""
    claudeApiKey := some ""
    openaiModel := "gpt-4"
    claudeModel := "claude-3-5-sonnet-20241022"
    customPrompt := some ""
    customSummaryPrompt :=
      some "Summarize the following text in a clear and concise manner with proper headings and paragraphs" }

/-- Object-spread merge of a stored settings object over the defaults, as in
the expression that spreads the defaults and then the stored settings: required
fields always come from the stored object, optional fields come from the stored
object when the key is present, else from the defaults. -/
def mergeSettings (d x : ExtensionSettings) : ExtensionSettings :=
  { provider := x.provider
    openaiApiKey := match x.openaiApiKey with | some v => some v | none => d.openaiApiKey
    claudeApiKey := match x.claudeApiKey with | some v => some v | none => d.claudeApiKey
    openaiModel := x.openaiModel
    claudeModel := x.claudeModel
    customPrompt := match x.customPrompt with | some v => some v | none => d.customPrompt
    customSummaryPrompt :=
      match x.customSummaryPrompt with | some v => some v | none => d.customSummaryPrompt }

/-- StorageService.getSettings over the chrome.storage.sync backend: lastError
models chrome.runtime.lastError (the promise is rejected with it when set),
stored models the value persisted under the settings key (none when unset, a
falsy read that falls back to the defaults). On success the stored value is
spread over the defaults. -/
def StorageService.getSettings (lastError : Option String)
    (stored : Option ExtensionSettings) : Except String ExtensionSettings :=
  match lastError with
  | some e => Except.error e
  | none =>
      let settings := stored.getD StorageService.defaultSettings
      Except.ok (mergeSettings StorageService.defaultSettings settings)

/-- StorageService.saveSettings: rejects with chrome.runtime.lastError when the
backend reports one (leaving the store unchanged), else persists the settings
object under the settings key. Returns the call outcome and the new store. -/
def StorageService.saveSettings (lastError : Option String) (settings : ExtensionSettings)
    (stored : Option ExtensionSettings) : Except String Unit × Option ExtensionSettings :=
  match lastError with
  | some e => (Except.error e, stored)
  | none => (Except.ok (), some settings)

/-- StorageService.validateSettings: collects the error messages in source
order and is valid exactly when none apply. -/
def StorageService.validateSettings (settings : ExtensionSettings) : ValidationResult :=
  let errors :=
    (if settings.provider = "openai" ∧ optBlank settings.openaiApiKey then
       ["OpenAI API key is required when OpenAI provider is selected"] else []) ++
    (if settings.provider = "anthropic" ∧ optBlank settings.claudeApiKey then
       ["Claude API key is required when Anthropic provider is selected"] else []) ++
    (if settings.provider = "openai" ∧ jsTrim settings.openaiModel = "" then
       ["OpenAI model is required"] else []) ++
    (if settings.provider = "anthropic" ∧ jsTrim settings.claudeModel = "" then
       ["Claude model is required"] else []) ++
    (if ¬ (settings.provider = "openai" ∨ settings.provider = "anthropic") then
       ["Invalid provider selected"] else [])
  { isValid := errors.isEmpty, errors := errors }

/-- Payload of the SHOW_MODAL and UPDATE_MODAL pushes (rephrase modal). -/
structure ModalData where
  originalText : String
  rephrasedText : Option String := none
  error : Option String := none
  isLoading : Option Bool := none
deriving Repr, DecidableEq

/-- Payload of the SHOW_SUMMARY_MODAL and UPDATE_SUMMARY_MODAL pushes. -/
structure SummaryModalData where
  originalText : String
  summaryText : Option String := none
  error : Option String := none
  isLoading : Option Bool := none
deriving Repr, DecidableEq

/-- Message pushed to the originating tab by the coordinator. -/
inductive TabMsg where
  | showModal (payload : ModalData)
  | updateModal (payload : ModalData)
  | showSummaryModal (payload : SummaryModalData)
  | updateSummaryModal (payload : SummaryModalData)
deriving Repr, DecidableEq

/-- Observable event of a coordinator flow: a tab push or an outbound provider request. -/
inductive Ev where
  | push (m : TabMsg)
  | net (c : NetCall)
deriving Repr, DecidableEq

/-- Network calls occurring in an event trace. -/
def netCallsOf (trace : List Ev) : List NetCall :=
  trace.filterMap fun e =>
    match e with
    | Ev.push _ => none
    | Ev.net c => some c

/-- Environment of one coordinator flow: the outcome of the getSettings call
(which can reject), the fetch oracle, the replies to GET_SELECTION and
GET_PAGE_CONTENT (none when the callback receives no response object), the
active tab, and the outcome of saveSettings for SAVE_SETTINGS messages. -/
structure CoordEnv where
  settingsResult : Except String ExtensionSettings
  net : FetchOutcome
  selectionText : Option String
  pageContent : Option String
  activeTabId : Option Nat
  saveResult : Except String Unit
deriving Repr

/-- Fixed error text the coordinator and content script substitute on summary failures. -/
def summaryUnavailableMessage : String :=
  "AI summary is not available at the moment, please try again"

/-- BackgroundService.handleRephraseRequest: pushes the loading SHOW_MODAL
first, then performs the settings lookup and provider call, and ends with
exactly one UPDATE_MODAL carrying the success text, the client error verbatim,
or the caught exception message (a rejected getSettings). -/
def BackgroundService.handleRephraseRequest (text : String) (env : CoordEnv) : List Ev :=
  Ev.push (TabMsg.showModal { originalText := text, isLoading := some true }) ::
  (match env.settingsResult with
   | Except.error e =>
       [Ev.push (TabMsg.updateModal
         { originalText := text, error := some e, isLoading := some false })]
   | Except.ok settings =>
       let run := APIClientFactory.rephrase text settings env.net
       run.1.map Ev.net ++
       [Ev.push (TabMsg.updateModal
         (match run.2 with
          | ApiResult.success out =>
              { originalText := text, rephrasedText := some out, isLoading := some false }
          | ApiResult.failure err =>
              { originalText := text, error := some err, isLoading := some false }))])

/-- BackgroundService.handleSummaryRequest: pushes the loading
SHOW_SUMMARY_MODAL first, then performs the settings lookup and provider call,
and ends with exactly one UPDATE_SUMMARY_MODAL; every failure (client failure
or caught exception) is replaced by the fixed unavailable message. -/
def BackgroundService.handleSummaryRequest (text : String) (env : CoordEnv) : List Ev :=
  Ev.push (TabMsg.showSummaryModal { originalText := text, isLoading := some true }) ::
  (match env.settingsResult with
   | Except.error _ =>
       [Ev.push (TabMsg.updateSummaryModal
         { originalText := text, error := some summaryUnavailableMessage,
           isLoading := some false })]
   | Except.ok settings =>
       let run := APIClientFactory.summarize text settings env.net
       run.1.map Ev.net ++
       [Ev.push (TabMsg.updateSummaryModal
         (match run.2 with
          | ApiResult.success out =>
              { originalText := text, summaryText := some out, isLoading := some false }
          | ApiResult.failure _ =>
              { originalText := text, error := some summaryUnavailableMessage,
                isLoading := some false }))])

/-- BackgroundService.handlePageSummarizeRequest: asks the tab for page content
and summarizes it when non-blank after trimming, else pushes the error-state
SHOW_SUMMARY_MODAL. -/
def BackgroundService.handlePageSummarizeRequest (env : CoordEnv) : List Ev :=
  let textToSummarize := env.pageContent.getD ""
  if ¬ (jsTrim textToSummarize = "") then
    BackgroundService.handleSummaryRequest textToSummarize env
  else
    [Ev.push (TabMsg.showSummaryModal
      { originalText := "", error := some summaryUnavailableMessage })]

/-- Context-menu click listener of BackgroundService.setupContextMenu: the
rephrase item requires a truthy selectionText and a tab id; the summarize item
requires a tab id and goes through the page-content request. -/
def BackgroundService.onContextMenuClicked (menuItemId : String)
    (selectionText : Option String) (tabId : Option Nat) (env : CoordEnv) : List Ev :=
  if menuItemId = "rephrase-text" ∧ jsTruthy selectionText ∧ tabId.isSome then
    BackgroundService.handleRephraseRequest (selectionText.getD "") env
  else if menuItemId = "summarize-page" ∧ tabId.isSome then
    BackgroundService.handlePageSummarizeRequest env
  else []

/-- BackgroundService.handleRephraseKeyboardShortcut: does nothing without an
active tab; asks the tab for its selection and rephrases only when the reply
text is truthy (the content script replies with the trimmed selection or the
empty string). -/
def BackgroundService.handleRephraseKeyboardShortcut (env : CoordEnv) : List Ev :=
  match env.activeTabId with
  | none => []
  | some _ =>
      if jsTruthy env.selectionText then
        BackgroundService.handleRephraseRequest (env.selectionText.getD "") env
      else []

/-- BackgroundService.handleSummarizeKeyboardShortcut: does nothing without an
active tab; summarizes the selection when non-blank after trimming, else falls
back to the page content, and pushes the error-state modal when that is blank
too. -/
def BackgroundService.handleSummarizeKeyboardShortcut (env : CoordEnv) : List Ev :=
  match env.activeTabId with
  | none => []
  | some _ =>
      let textToSummarize := env.selectionText.getD ""
      if jsTrim textToSummarize = "" then
        let pageText := env.pageContent.getD ""
        if jsTrim pageText = "" then
          [Ev.push (TabMsg.showSummaryModal
            { originalText := "", error := some summaryUnavailableMessage })]
        else BackgroundService.handleSummaryRequest pageText env
      else BackgroundService.handleSummaryRequest textToSummarize env

/-- Response object passed to sendResponse by the coordinator message handlers. -/
structure MsgResponse where
  success : Bool
  rephrasedText : Option String := none
  summaryText : Option String := none
  error : Option String := none
  settings : Option ExtensionSettings := none
deriving Repr, DecidableEq

/-- Message from a page or UI surface to the coordinator. The switch in the
source dispatches on the string tag; kinds with a dedicated case are listed,
every other tag (ASK_AI included, which has no case in the switch) is carried
by other. -/
inductive ChromeMessage where
  | rephraseText (text : String)
  | summarizeText (text : String)
  | askAI (text : String)
  | getSettings
  | saveSettings (payload : ExtensionSettings)
  | other (type : String)
deriving Repr, DecidableEq

/-- BackgroundService.handleRephraseTextMessage: getSettings then the factory
rephrase, answering with the client result object verbatim; a rejected
getSettings is caught and answered as a failure with its message. -/
def BackgroundService.handleRephraseTextMessage (text : String) (env : CoordEnv) :
    List NetCall × MsgResponse :=
  match env.settingsResult with
  | Except.error e => ([], { success := false, error := some e })
  | Except.ok settings =>
      let run := APIClientFactory.rephrase text settings env.net
      (run.1,
       match run.2 with
       | ApiResult.success out => { success := true, rephrasedText := some out }
       | ApiResult.failure err => { success := false, error := some err })

/-- BackgroundService.handleSummarizeTextMessage: getSettings then the factory
summarize, answering with the client result object verbatim; a rejected
getSettings is caught and answered with the fixed unavailable message. -/
def BackgroundService.handleSummarizeTextMessage (text : String) (env : CoordEnv) :
    List NetCall × MsgResponse :=
  match env.settingsResult with
  | Except.error _ => ([], { success := false, error := some summaryUnavailableMessage })
  | Except.ok settings =>
      let run := APIClientFactory.summarize text settings env.net
      (run.1,
       match run.2 with
       | ApiResult.success out => { success := true, summaryText := some out }
       | ApiResult.failure err => { success := false, error := some err })

/-- BackgroundService.handleGetSettingsMessage: answers the settings on
success, else the caught message. -/
def BackgroundService.handleGetSettingsMessage (env : CoordEnv) : MsgResponse :=
  match env.settingsResult with
  | Except.ok settings => { success := true, settings := some settings }
  | Except.error e => { success := false, error := some e }

/-- BackgroundService.handleSaveSettingsMessage: answers success, else the
caught message. -/
def BackgroundService.handleSaveSettingsMessage (env : CoordEnv) : MsgResponse :=
  match env.saveResult with
  | Except.ok _ => { success := true }
  | Except.error e => { success := false, error := some e }

/-- BackgroundService.handleMessage: the switch over the message tag. The
source has cases exactly for REPHRASE_TEXT, SUMMARIZE_TEXT, GET_SETTINGS and
SAVE_SETTINGS; ASK_AI and every unrecognized tag reach the default branch,
which answers the Unknown-message failure and performs no provider call. -/
def BackgroundService.handleMessage (message : ChromeMessage) (env : CoordEnv) :
    List NetCall × MsgResponse :=
  match message with
  | ChromeMessage.rephraseText text => BackgroundService.handleRephraseTextMessage text env
  | ChromeMessage.summarizeText text => BackgroundService.handleSummarizeTextMessage text env
  | ChromeMessage.getSettings => ([], BackgroundService.handleGetSettingsMessage env)
  | ChromeMessage.saveSettings _ => ([], BackgroundService.handleSaveSettingsMessage env)
  | ChromeMessage.askAI _ => ([], { success := false, error := some "Unknown message type" })
  | ChromeMessage.other _ => ([], { success := false, error := some "Unknown message type" })

/-- Kind of a mounted modal element, by its root class. -/
inductive ModalKind where
  | rephrase
  | summary
  | askAI
deriving Repr, DecidableEq

/-- ContentScript.hideModal: querySelector over the three modal classes finds
the first mounted modal, if any, and removes it. The document is modelled as
the list of mounted modal elements in document order. -/
def ContentScript.hideModal (doc : List ModalKind) : List ModalKind :=
  match doc with
  | [] => []
  | _ :: rest => rest

/-- ContentScript.showModal: removes any existing modal first, then appends the
freshly created rephrase modal to the body. -/
def ContentScript.showModal (doc : List ModalKind) : List ModalKind :=
  ContentScript.hideModal doc ++ [ModalKind.rephrase]

/-- ContentScript.showSummaryModal: removes any existing modal first, then
appends the summary modal. -/
def ContentScript.showSummaryModal (doc : List ModalKind) : List ModalKind :=
  ContentScript.hideModal doc ++ [ModalKind.summary]

/-- ContentScript.showAskAIModal: removes any existing modal first, then
appends the ask-AI modal. -/
def ContentScript.showAskAIModal (doc : List ModalKind) : List ModalKind :=
  ContentScript.hideModal doc ++ [ModalKind.askAI]

/-- Modal operation the content script can perform on the document. -/
inductive ModalOp where
  | showRephrase
  | showSummary
  | showAskAI
  | hide
deriving Repr, DecidableEq

/-- Application of one modal operation to the document. -/
def ContentScript.applyModalOp (doc : List ModalKind) (op : ModalOp) : List ModalKind :=
  match op with
  | ModalOp.showRephrase => ContentScript.showModal doc
  | ModalOp.showSummary => ContentScript.showSummaryModal doc
  | ModalOp.showAskAI => ContentScript.showAskAIModal doc
  | ModalOp.hide => ContentScript.hideModal doc

/-- OptionsController.testConnection: validates the form first and refuses to
call the provider when invalid; otherwise performs the factory rephrase of the
fixed test text and reports the outcome. Returns the provider requests made
and the status message shown. -/
def OptionsController.testConnection (formData : ExtensionSettings) (net : FetchOutcome) :
    List NetCall × String :=
  let validation := StorageService.validateSettings formData
  if ¬ validation.isValid then
    ([], String.intercalate ", " validation.errors)
  else
    let run := APIClientFactory.rephrase "Test connection" formData net
    (run.1,
     match run.2 with
     | ApiResult.success _ => "Connection successful! API is working correctly."
     | ApiResult.failure err => "Connection failed: " ++ err)

/-- Sample configuration with the anthropic provider active and a non-empty
credential, used as concrete input for witnesses and counterexamples. -/
def sampleAnthropicSettings : ExtensionSettings :=
  { provider := "anthropic"
    openaiApiKey := some ""
    claudeApiKey := some "test-key"
    openaiModel := "gpt-4"
    claudeModel := "claude-3-5-sonnet-20241022"
    customPrompt := none
    customSummaryPrompt := none }

/-- Sample configuration with the openai provider active, the default prompt
(customPrompt unset), credential K and model M, as in the spec scenario. -/
def sampleOpenAISettings : ExtensionSettings :=
  { provider := "openai"
    openaiApiKey := some "K"
    claudeApiKey := some ""
    openaiModel := "M"
    claudeModel := "claude-3-5-sonnet-20241022"
    customPrompt := none
    customSummaryPrompt := none }

/-- Sample configuration whose active provider has an empty credential. -/
def emptyCredSettings : ExtensionSettings :=
  { provider := "anthropic"
    openaiApiKey := some ""
    claudeApiKey := some ""
    openaiModel := "gpt-4"
    claudeModel := "claude-3-5-sonnet-20241022"
    customPrompt := none
    customSummaryPrompt := none }

/-- Coordinator environment with a successful settings lookup and the given
fetch oracle, used as concrete input for witnesses and counterexamples. -/
def sampleEnv (settings : ExtensionSettings) (net : FetchOutcome) : CoordEnv :=
  { settingsResult := Except.ok settings
    net := net
    selectionText := none
    pageContent := none
    activeTabId := some 1
    saveResult := Except.ok () }

/-- Coordinator environment whose page replies are blank: the selection reply
is the empty string and the page content is whitespace only. -/
def blankEnv : CoordEnv :=
  { settingsResult := Except.ok sampleAnthropicSettings
    net := FetchOutcome.http true 200 "OK" "x"
    selectionText := some ""
    pageContent := some "  "
    activeTabId := some 1
    saveResult := Except.ok () }

/-- Every modal operation of the content script keeps at most one modal mounted. -/
theorem applyModalOp_at_most_one (doc : List ModalKind) (op : ModalOp)
    (h : doc.length ≤ 1) : (ContentScript.applyModalOp doc op).length ≤ 1 := by
  cases doc with
  | nil =>
      cases op <;>
        simp [ContentScript.applyModalOp, ContentScript.showModal,
          ContentScript.showSummaryModal, ContentScript.showAskAIModal,
          ContentScript.hideModal]
  | cons a rest =>
      have hrest : rest = [] := by
        cases rest with
        | nil => rfl
        | cons b t => simp at h
      subst hrest
      cases op <;>
        simp [ContentScript.applyModalOp, ContentScript.showModal,
          ContentScript.showSummaryModal, ContentScript.showAskAIModal,
          ContentScript.hideModal]

/-- Any sequence of modal operations started from a document with at most one
mounted modal keeps at most one mounted. -/
theorem modalOps_at_most_one (ops : List ModalOp) (doc : List ModalKind)
    (h : doc.length ≤ 1) : (ops.foldl ContentScript.applyModalOp doc).length ≤ 1 := by
  induction ops generalizing doc with
  | nil => simpa using h
  | cons op rest ih =>
      simpa using ih (ContentScript.applyModalOp doc op) (applyModalOp_at_most_one doc op h)

/-- C9. At most one modal is mounted at any time: from an empty document, any
sequence of modal-opening and hiding operations leaves at most one modal
mounted, and opening a modal of any kind while a modal of any kind is mounted
leaves exactly the newly opened modal mounted. -/
theorem c9_at_most_one_modal :
    (∀ ops : List ModalOp, (ops.foldl ContentScript.applyModalOp []).length ≤ 1) ∧
    (∀ a : ModalKind,
      ContentScript.showModal [a] = [ModalKind.rephrase] ∧
      ContentScript.showSummaryModal [a] = [ModalKind.summary] ∧
      ContentScript.showAskAIModal [a] = [ModalKind.askAI]) := by
  constructor
  · intro ops
    exact modalOps_at_most_one ops [] (by simp)
  · intro a
    exact ⟨rfl, rfl, rfl⟩

/-- C10. The Provider Factory returns the OpenAI client exactly when the
provider tag is the string openai, and the Claude client for every other tag,
with no validation of the tag. -/
theorem c10_factory_provider_selection (settings : ExtensionSettings) :
    (APIClientFactory.create settings = ClientKind.openai ↔ settings.provider = "openai") ∧
    (settings.provider ≠ "openai" → APIClientFactory.create settings = ClientKind.claude) := by
  unfold APIClientFactory.create
  constructor
  · split_ifs with h
    · simp [h]
    · simp [h]
  · intro h
    simp [if_neg h]

/-- Witness for C10 at a concrete unrecognized tag: selection does not fail and
returns the Claude client. -/
theorem c10_factory_provider_selection_witness :
    APIClientFactory.create
      { provider := "no-such-provider", openaiApiKey := none, claudeApiKey := none,
        openaiModel := "m", claudeModel := "m", customPrompt := none,
        customSummaryPrompt := none } = ClientKind.claude :=
  (c10_factory_provider_selection _).2 (by decide)

/-- C8 (amended). Round-trip: when the storage backend reports no error,
saveSettings of x followed by getSettings returns exactly x merged over the
defaults; when the backend reports an error, getSettings rejects with that
error instead of returning a configuration. -/
theorem c8_settings_round_trip_and_rejection :
    (∀ (x : ExtensionSettings) (stored : Option ExtensionSettings),
      StorageService.getSettings none ((StorageService.saveSettings none x stored).2) =
        Except.ok (mergeSettings StorageService.defaultSettings x)) ∧
    (∀ (e : String) (stored : Option ExtensionSettings),
      StorageService.getSettings (some e) stored = Except.error e) := by
  constructor
  · intro x stored
    rfl
  · intro e stored
    rfl

/-- Counterexample for C8 as stated: getSettings does reject when the storage
backend reports an error, rather than returning defaults merged with persisted
overrides. -/
theorem c8_counterexample_getSettings_rejects :
    StorageService.getSettings (some "QUOTA_BYTES quota exceeded") none =
      Except.error "QUOTA_BYTES quota exceeded" := rfl

/-- C1 (failing input). An ASK_AI request message carrying input text reaches
the default branch of the coordinator switch: it is answered with the typed
unknown-request failure and no provider call is made, although the settings
lookup succeeds and the provider oracle would answer. -/
theorem c1_ask_ai_answered_unknown :
    BackgroundService.handleMessage (ChromeMessage.askAI "What is a closure?")
      (sampleEnv sampleAnthropicSettings (FetchOutcome.http true 200 "OK" "An explanation")) =
    ([], { success := false, error := some "Unknown message type" }) := by
  decide

/-- C4. Every provider-client invocation returns exactly one of four outcomes
and never throws past the client boundary: a thrown fetch gives the Network
error failure carrying the cause, a non-ok HTTP status gives the provider API
Error failure carrying status and statusText, an ok response without a usable
output field gives the No-response failure, and otherwise the trimmed content
is returned as success; this holds for rephrase and summarize under either
provider the factory selects. -/
theorem c4_client_outcome_classes (text : String) (settings : ExtensionSettings) :
    (∀ cause, (APIClientFactory.rephrase text settings (FetchOutcome.thrown cause)).2 =
        ApiResult.failure ("Network error: " ++ cause)) ∧
    (∀ status statusText content,
        (APIClientFactory.rephrase text settings
            (FetchOutcome.http false status statusText content)).2 =
        ApiResult.failure (providerLabel settings ++ " API Error: " ++
          toString status ++ " " ++ statusText)) ∧
    (∀ status statusText,
        (APIClientFactory.rephrase text settings (FetchOutcome.http true status statusText "")).2 =
        ApiResult.failure ("No response from " ++ providerLabel settings ++ " API")) ∧
    (∀ status statusText content, content ≠ "" →
        (APIClientFactory.rephrase text settings
            (FetchOutcome.http true status statusText content)).2 =
        ApiResult.success (jsTrim content)) ∧
    (∀ cause, (APIClientFactory.summarize text settings (FetchOutcome.thrown cause)).2 =
        ApiResult.failure ("Network error: " ++ cause)) ∧
    (∀ status statusText content,
        (APIClientFactory.summarize text settings
            (FetchOutcome.http false status statusText content)).2 =
        ApiResult.failure (providerLabel settings ++ " API Error: " ++
          toString status ++ " " ++ statusText)) ∧
    (∀ status statusText,
        (APIClientFactory.summarize text settings (FetchOutcome.http true status statusText "")).2 =
        ApiResult.failure ("No response from " ++ providerLabel settings ++ " API")) ∧
    (∀ status statusText content, content ≠ "" →
        (APIClientFactory.summarize text settings
            (FetchOutcome.http true status statusText content)).2 =
        ApiResult.success (jsTrim content)) := by
  refine ⟨?_, ?_, ?_, ?_, ?_, ?_, ?_, ?_⟩ <;>
  · intros
    by_cases h : settings.provider = "openai" <;>
      simp_all [APIClientFactory.rephrase, APIClientFactory.summarize, APIClientFactory.create,
        OpenAIClient.rephrase, OpenAIClient.summarize, ClaudeClient.rephrase,
        ClaudeClient.summarize, providerLabel]

/-- Witness for C4 at concrete inputs: each of the four outcome classes occurs
as stated. -/
theorem c4_client_outcome_classes_witness :
    (APIClientFactory.rephrase "hi" sampleAnthropicSettings
        (FetchOutcome.thrown "Failed to fetch")).2 =
      ApiResult.failure "Network error: Failed to fetch" ∧
    (APIClientFactory.rephrase "hi" sampleAnthropicSettings
        (FetchOutcome.http false 401 "Unauthorized" "")).2 =
      ApiResult.failure "Claude API Error: 401 Unauthorized" ∧
    (APIClientFactory.summarize "hi" sampleAnthropicSettings
        (FetchOutcome.http true 200 "OK" "")).2 =
      ApiResult.failure "No response from Claude API" ∧
    (APIClientFactory.rephrase "hi" sampleAnthropicSettings
        (FetchOutcome.http true 200 "OK" "  ok  ")).2 =
      ApiResult.success "ok" := by
  have h := c4_client_outcome_classes "hi" sampleAnthropicSettings
  refine ⟨?_, ?_, ?_, ?_⟩
  · rw [h.1 "Failed to fetch"]
    decide
  · rw [h.2.1 401 "Unauthorized" ""]
    decide
  · rw [h.2.2.2.2.2.2.1 200 "OK"]
    decide
  · rw [h.2.2.2.1 200 "OK" "  ok  " (by decide)]
    decide

/-- C5. With no override prompt configured, the OpenAI client for a rephrase
call issues exactly one request whose system message is the fixed default
rephrase instruction and whose user message is the fixed prefix followed by the
input text, and on a successful response returns the response content with
surrounding whitespace trimmed. -/
theorem c5_openai_default_rephrase (text : String) (settings : ExtensionSettings)
    (h : jsTruthy settings.customPrompt = false) :
    (∀ net, (OpenAIClient.rephrase text settings net).1 =
      [NetCall.openaiChat settings.openaiApiKey settings.openaiModel DEFAULT_SYSTEM_PROMPT
        ("Please rephrase the following text: " ++ text) text]) ∧
    (∀ status statusText content, content ≠ "" →
      (OpenAIClient.rephrase text settings (FetchOutcome.http true status statusText content)).2 =
      ApiResult.success (jsTrim content)) := by
  constructor
  · intro net
    cases hc : settings.customPrompt with
    | none => simp [OpenAIClient.rephrase, jsOr, jsTruthy, hc]
    | some s =>
        rw [hc] at h
        simp [jsTruthy] at h
        simp [OpenAIClient.rephrase, jsOr, jsTruthy, hc, h]
  · intro status statusText content hcontent
    simp [OpenAIClient.rephrase, hcontent]

/-- Witness for C5: the spec scenario with input text This is, provider openai,
model M, credential K and no override prompt; the single request carries the
default instruction and the prefixed user message, and the mocked success
response That was yields Success with output text That was. -/
theorem c5_openai_default_rephrase_witness :
    jsTruthy sampleOpenAISettings.customPrompt = false ∧
    (OpenAIClient.rephrase "This is" sampleOpenAISettings
        (FetchOutcome.http true 200 "OK" "That was")).1 =
      [NetCall.openaiChat (some "K") "M" DEFAULT_SYSTEM_PROMPT
        "Please rephrase the following text: This is" "This is"] ∧
    (OpenAIClient.rephrase "This is" sampleOpenAISettings
        (FetchOutcome.http true 200 "OK" "That was")).2 =
      ApiResult.success "That was" := by
  have h := c5_openai_default_rephrase "This is" sampleOpenAISettings (by decide)
  refine ⟨by decide, ?_, ?_⟩
  · rw [h.1 (FetchOutcome.http true 200 "OK" "That was")]
    decide
  · rw [h.2 200 "OK" "That was" (by decide)]
    decide

/-- C6. Every push-triggered flow that reaches the coordinator pushes the
loading message first, then performs only network calls, and ends with exactly
one terminal update push (with isLoading false), for the rephrase and the
summary flow alike, in every environment, including a rejected settings lookup
and a thrown provider call. -/
theorem c6_loading_then_single_update (text : String) (env : CoordEnv) :
    (∃ calls payload,
      BackgroundService.handleRephraseRequest text env =
        Ev.push (TabMsg.showModal { originalText := text, isLoading := some true }) ::
          (List.map Ev.net calls ++ [Ev.push (TabMsg.updateModal payload)]) ∧
      payload.isLoading = some false) ∧
    (∃ calls payload,
      BackgroundService.handleSummaryRequest text env =
        Ev.push (TabMsg.showSummaryModal { originalText := text, isLoading := some true }) ::
          (List.map Ev.net calls ++ [Ev.push (TabMsg.updateSummaryModal payload)]) ∧
      payload.isLoading = some false) := by
  constructor
  · cases hs : env.settingsResult with
    | error e =>
        exact ⟨[], { originalText := text, error := some e, isLoading := some false },
          by simp [BackgroundService.handleRephraseRequest, hs], rfl⟩
    | ok settings =>
        cases hr : (APIClientFactory.rephrase text settings env.net).2 with
        | success out =>
            exact ⟨(APIClientFactory.rephrase text settings env.net).1,
              { originalText := text, rephrasedText := some out, isLoading := some false },
              by simp [BackgroundService.handleRephraseRequest, hs, hr], rfl⟩
        | failure err =>
            exact ⟨(APIClientFactory.rephrase text settings env.net).1,
              { originalText := text, error := some err, isLoading := some false },
              by simp [BackgroundService.handleRephraseRequest, hs, hr], rfl⟩
  · cases hs : env.settingsResult with
    | error e =>
        exact ⟨[],
          { originalText := text, error := some summaryUnavailableMessage,
            isLoading := some false },
          by simp [BackgroundService.handleSummaryRequest, hs], rfl⟩
    | ok settings =>
        cases hr : (APIClientFactory.summarize text settings env.net).2 with
        | success out =>
            exact ⟨(APIClientFactory.summarize text settings env.net).1,
              { originalText := text, summaryText := some out, isLoading := some false },
              by simp [BackgroundService.handleSummaryRequest, hs, hr], rfl⟩
        | failure err =>
            exact ⟨(APIClientFactory.summarize text settings env.net).1,
              { originalText := text, error := some summaryUnavailableMessage,
                isLoading := some false },
              by simp [BackgroundService.handleSummaryRequest, hs, hr], rfl⟩

/-- C7 (amended). The operation result produced by the Provider Client is
forwarded verbatim for the rephrase operation on both channels (the push flow
carries the success text or the error message character for character in the
UPDATE_MODAL payload, and the REPHRASE_TEXT response carries the client result
object unchanged), and the SUMMARIZE_TEXT direct response also forwards the
client result unchanged; the summary push flow instead replaces every client
failure with the fixed unavailable message. -/
theorem c7_result_forwarding (text : String) (env : CoordEnv)
    (settings : ExtensionSettings) (hs : env.settingsResult = Except.ok settings) :
    (∀ out, (APIClientFactory.rephrase text settings env.net).2 = ApiResult.success out →
      BackgroundService.handleRephraseRequest text env =
        Ev.push (TabMsg.showModal { originalText := text, isLoading := some true }) ::
          (List.map Ev.net (APIClientFactory.rephrase text settings env.net).1 ++
           [Ev.push (TabMsg.updateModal
             { originalText := text, rephrasedText := some out, isLoading := some false })]) ∧
      (BackgroundService.handleRephraseTextMessage text env).2 =
        { success := true, rephrasedText := some out }) ∧
    (∀ err, (APIClientFactory.rephrase text settings env.net).2 = ApiResult.failure err →
      BackgroundService.handleRephraseRequest text env =
        Ev.push (TabMsg.showModal { originalText := text, isLoading := some true }) ::
          (List.map Ev.net (APIClientFactory.rephrase text settings env.net).1 ++
           [Ev.push (TabMsg.updateModal
             { originalText := text, error := some err, isLoading := some false })]) ∧
      (BackgroundService.handleRephraseTextMessage text env).2 =
        { success := false, error := some err }) ∧
    (∀ err, (APIClientFactory.summarize text settings env.net).2 = ApiResult.failure err →
      (BackgroundService.handleSummarizeTextMessage text env).2 =
        { success := false, error := some err } ∧
      BackgroundService.handleSummaryRequest text env =
        Ev.push (TabMsg.showSummaryModal { originalText := text, isLoading := some true }) ::
          (List.map Ev.net (APIClientFactory.summarize text settings env.net).1 ++
           [Ev.push (TabMsg.updateSummaryModal
             { originalText := text, error := some summaryUnavailableMessage,
               isLoading := some false })])) := by
  refine ⟨?_, ?_, ?_⟩
  · intro out hr
    constructor
    · simp [BackgroundService.handleRephraseRequest, hs, hr]
    · simp [BackgroundService.handleRephraseTextMessage, hs, hr]
  · intro err hr
    constructor
    · simp [BackgroundService.handleRephraseRequest, hs, hr]
    · simp [BackgroundService.handleRephraseTextMessage, hs, hr]
  · intro err hr
    constructor
    · simp [BackgroundService.handleSummarizeTextMessage, hs, hr]
    · simp [BackgroundService.handleSummaryRequest, hs, hr]

/-- Witness for C7 at a concrete 401 protocol failure: the rephrase flows
surface the client error verbatim while the summary push substitutes the
generic message. -/
theorem c7_result_forwarding_witness :
    (BackgroundService.handleRephraseTextMessage "Some text"
        (sampleEnv sampleAnthropicSettings (FetchOutcome.http false 401 "Unauthorized" ""))).2 =
      { success := false, error := some "Claude API Error: 401 Unauthorized" } ∧
    (BackgroundService.handleSummarizeTextMessage "Some text"
        (sampleEnv sampleAnthropicSettings (FetchOutcome.http false 401 "Unauthorized" ""))).2 =
      { success := false, error := some "Claude API Error: 401 Unauthorized" } := by
  have h := c7_result_forwarding "Some text"
    (sampleEnv sampleAnthropicSettings (FetchOutcome.http false 401 "Unauthorized" ""))
    sampleAnthropicSettings rfl
  constructor
  · exact (h.2.1 "Claude API Error: 401 Unauthorized" (by decide)).2
  · exact (h.2.2 "Claude API Error: 401 Unauthorized" (by decide)).1

set_option maxRecDepth 8192 in
/-- Counterexample for C7 as stated: for the summarize operation the client
failure message is not surfaced verbatim; the client produces the Claude API
Error for a mocked 401, but the UPDATE_SUMMARY_MODAL payload delivered to the
page carries the fixed unavailable message instead. -/
theorem c7_counterexample_summary_error_replaced :
    (APIClientFactory.summarize "Some text" sampleAnthropicSettings
        (FetchOutcome.http false 401 "Unauthorized" "")).2 =
      ApiResult.failure "Claude API Error: 401 Unauthorized" ∧
    BackgroundService.handleSummaryRequest "Some text"
        (sampleEnv sampleAnthropicSettings (FetchOutcome.http false 401 "Unauthorized" "")) =
      [Ev.push (TabMsg.showSummaryModal { originalText := "Some text", isLoading := some true }),
       Ev.net (NetCall.claudeMsg (some "test-key") "claude-3-5-sonnet-20241022"
         (DEFAULT_SUMMARY_PROMPT ++ "\n\nPlease summarize the following text: Some text")
         "Some text"),
       Ev.push (TabMsg.updateSummaryModal
         { originalText := "Some text", error := some summaryUnavailableMessage,
           isLoading := some false })] ∧
    summaryUnavailableMessage ≠ "Claude API Error: 401 Unauthorized" := by
  refine ⟨by decide, ?_, by decide⟩
  decide

/-- C2 (amended). For every configuration whose active provider has an empty
or missing credential, validateSettings returns isValid false together with
the provider-specific message; the options screen consults this validation and
refuses the provider call, but the coordinator operation handlers never invoke
validateSettings, so along the operation path the client still attempts the
outbound request (see the counterexample). -/
theorem c2_empty_credential_validation (settings : ExtensionSettings) :
    (settings.provider = "openai" → optBlank settings.openaiApiKey = true →
      (StorageService.validateSettings settings).isValid = false ∧
      "OpenAI API key is required when OpenAI provider is selected" ∈
        (StorageService.validateSettings settings).errors) ∧
    (settings.provider = "anthropic" → optBlank settings.claudeApiKey = true →
      (StorageService.validateSettings settings).isValid = false ∧
      "Claude API key is required when Anthropic provider is selected" ∈
        (StorageService.validateSettings settings).errors) ∧
    ((StorageService.validateSettings settings).isValid = false →
      ∀ net, (OptionsController.testConnection settings net).1 = []) := by
  refine ⟨?_, ?_, ?_⟩
  · intro hp hk
    constructor
    · simp [StorageService.validateSettings, hp, hk]
    · simp [StorageService.validateSettings, hp, hk]
  · intro hp hk
    constructor
    · simp [StorageService.validateSettings, hp, hk]
    · simp [StorageService.validateSettings, hp, hk]
  · intro hv net
    simp [OptionsController.testConnection, hv]

/-- Witness for C2 (amended) at the concrete anthropic configuration with an
empty credential. -/
theorem c2_empty_credential_validation_witness :
    (StorageService.validateSettings emptyCredSettings).isValid = false ∧
    "Claude API key is required when Anthropic provider is selected" ∈
      (StorageService.validateSettings emptyCredSettings).errors ∧
    (OptionsController.testConnection emptyCredSettings
      (FetchOutcome.http true 200 "OK" "x")).1 = [] := by
  have h := c2_empty_credential_validation emptyCredSettings
  have h2 := h.2.1 rfl (by decide)
  exact ⟨h2.1, h2.2, h.2.2 h2.1 (FetchOutcome.http true 200 "OK" "x")⟩

set_option maxRecDepth 8192 in
/-- Counterexample for C2 as stated: with the active provider credential
empty, validateSettings is indeed invalid, yet the coordinator REPHRASE_TEXT
operation performs the outbound provider request anyway, because the operation
path never consults validateSettings. -/
theorem c2_counterexample_network_call_with_empty_credential :
    (StorageService.validateSettings emptyCredSettings).isValid = false ∧
    (BackgroundService.handleRephraseTextMessage "hello"
        (sampleEnv emptyCredSettings (FetchOutcome.http true 200 "OK" "Hi"))).1 =
      [NetCall.claudeMsg (some "") "claude-3-5-sonnet-20241022"
        (DEFAULT_SYSTEM_PROMPT ++ "\n\nPlease rephrase the following text: " ++ "hello")
        "hello"] := by
  exact ⟨by decide, by decide⟩

/-- C3 (amended). Blank input is blocked where the source checks for it: the
context-menu rephrase item ignores an absent or empty selection, the keyboard
rephrase shortcut ignores an absent or empty selection reply, and both
summarize entry points refuse to call the provider when the chosen text is
blank after trimming; rephrase entry points however test only truthiness, so
a whitespace-only rephrase input is not blocked (see the counterexample). -/
theorem c3_blank_input_guards (env : CoordEnv) :
    (∀ tabId, BackgroundService.onContextMenuClicked "rephrase-text" none tabId env = []) ∧
    (∀ tabId, BackgroundService.onContextMenuClicked "rephrase-text" (some "") tabId env = []) ∧
    ((env.selectionText = none ∨ env.selectionText = some "") →
      BackgroundService.handleRephraseKeyboardShortcut env = []) ∧
    (jsTrim (env.pageContent.getD "") = "" →
      netCallsOf (BackgroundService.handlePageSummarizeRequest env) = []) ∧
    (jsTrim (env.selectionText.getD "") = "" → jsTrim (env.pageContent.getD "") = "" →
      netCallsOf (BackgroundService.handleSummarizeKeyboardShortcut env) = []) := by
  refine ⟨?_, ?_, ?_, ?_, ?_⟩
  · intro tabId
    simp [BackgroundService.onContextMenuClicked, jsTruthy]
  · intro tabId
    simp [BackgroundService.onContextMenuClicked, jsTruthy]
  · intro h
    rcases h with h | h <;>
      cases ht : env.activeTabId <;>
        simp [BackgroundService.handleRephraseKeyboardShortcut, ht, h, jsTruthy]
  · intro h
    simp [BackgroundService.handlePageSummarizeRequest, h, netCallsOf]
  · intro h1 h2
    cases ht : env.activeTabId <;>
      simp [BackgroundService.handleSummarizeKeyboardShortcut, ht, h1, h2, netCallsOf]

/-- Witness for C3 (amended) on a concrete environment with an empty selection
reply and whitespace-only page content. -/
theorem c3_blank_input_guards_witness :
    BackgroundService.onContextMenuClicked "rephrase-text" none (some 1) blankEnv = [] ∧
    BackgroundService.handleRephraseKeyboardShortcut blankEnv = [] ∧
    netCallsOf (BackgroundService.handlePageSummarizeRequest blankEnv) = [] ∧
    netCallsOf (BackgroundService.handleSummarizeKeyboardShortcut blankEnv) = [] := by
  have h := c3_blank_input_guards blankEnv
  exact ⟨h.1 (some 1), h.2.2.1 (Or.inr rfl), h.2.2.2.1 (by decide),
    h.2.2.2.2 (by decide) (by decide)⟩

set_option maxRecDepth 8192 in
/-- Counterexample for C3 as stated: a context-menu rephrase click whose
captured selection is a single space (whitespace only, empty after trimming)
reaches the Provider Client: the flow performs the outbound request carrying
that whitespace input. -/
theorem c3_counterexample_whitespace_reaches_client :
    jsTrim " " = "" ∧
    netCallsOf (BackgroundService.onContextMenuClicked "rephrase-text" (some " ") (some 1)
        (sampleEnv sampleAnthropicSettings (FetchOutcome.http true 200 "OK" "Rephrased"))) =
      [NetCall.claudeMsg (some "test-key") "claude-3-5-sonnet-20241022"
        (DEFAULT_SYSTEM_PROMPT ++ "\n\nPlease rephrase the following text: " ++ " ") " "] := by
  exact ⟨by decide, by decide⟩
